import Mathlib

/-!
Shallow embedding of the OTP authentication core of the job-platform backend
(`src/routes/auth.js`, startup validation in `validateEnv`, schema in the
migration file).  Database rows become Lean structures, SQL statements become
pure list operations, and the nondeterminism of `Math.random()` and of the
store's failure modes becomes explicit parameters.
-/

namespace Auth

/-- Row of the `users` table that the auth routes read and write.
Timestamps are epoch milliseconds (JS `Date` values). -/
structure User where
  id : Nat
  mobile : String
  email : Option String
  passwordHash : Option String
  role : String
  isActive : Bool
  is_verified : Bool
  otp : Option String
  otpExpiresAt : Option Int
  deriving Repr, DecidableEq

/-- Decimal digit character, as produced by JS `Number.prototype.toString()`. -/
def digitChar (d : Nat) : Char :=
  if d = 0 then '0' else if d = 1 then '1' else if d = 2 then '2' else if d = 3 then '3'
  else if d = 4 then '4' else if d = 5 then '5' else if d = 6 then '6' else if d = 7 then '7'
  else if d = 8 then '8' else if d = 9 then '9' else '*'

/-- Digit extraction with an explicit recursion-depth bound (structural in
`fuel`, so the kernel can evaluate it).  Each step peels off the least
significant decimal digit. -/
def toDecimalDigitsAux : Nat → Nat → List Nat
  | 0, _ => []
  | fuel + 1, n => if n < 10 then [n] else toDecimalDigitsAux fuel (n / 10) ++ [n % 10]

/-- Big-endian decimal digits of a natural number (`[0]` for `0`), the digit
sequence JS `Number.prototype.toString()` prints for a nonnegative integer.
Depth 20 covers every value below `10^20`; every integer a JS number can hold
exactly is below `2^53 < 10^16`. -/
def toDecimalDigits (n : Nat) : List Nat :=
  toDecimalDigitsAux 20 n

/-- JS `Number.prototype.toString()` for a nonnegative integer value. -/
def numToString (n : Nat) : String :=
  String.mk ((toDecimalDigits n).map digitChar)

/-- Helper `generateOTP` from `src/routes/auth.js`:
`Math.floor(100000 + Math.random() * 900000).toString()`.
`Math.random()` returns a real in `[0, 1)`, so `Math.floor(Math.random() * 900000)`
is an integer in `[0, 899999]`; it is passed in as the parameter `rnd`. -/
def generateOTP (rnd : Nat) : String :=
  numToString (100000 + rnd)

/-- Session token minted by `jwt.sign(payload, JWT_SECRET, { expiresIn: "30d" })`.
The signature itself is opaque; the token is modelled by what determines it:
the claims, the signing secret and the fixed validity window. -/
structure SessionToken where
  userId : Nat
  mobile : String
  role : String
  secret : String
  expiresIn : String
  deriving Repr, DecidableEq

/-- Model of `jwt.sign({ userId, mobile, role }, JWT_SECRET, { expiresIn: "30d" })`. -/
def jwtSign (userId : Nat) (mobile role secret : String) : SessionToken :=
  ⟨userId, mobile, role, secret, "30d"⟩

/-- Client-visible response of `POST /send-otp` (status and body). -/
inductive SendOtpResp where
  /-- HTTP 400 with body `{ error }`. -/
  | badRequest (error : String)
  /-- HTTP 200 with body `{ success: true, message: "OTP sent successfully", otp? }`;
  the `otp` field is `undefined` (absent) unless echoed. -/
  | ok (otpField : Option String)
  deriving Repr, DecidableEq

/-- Outcome of one `POST /send-otp` request: the response, the resulting
`users` table, and what (if anything) was echoed to the console by the
development-mode `console.log` of the code. -/
structure SendOtpResult where
  resp : SendOtpResp
  users : List User
  consoleOtpLog : Option String
  deriving Repr, DecidableEq

/-- Handler of `POST /send-otp` in `src/routes/auth.js`.

Explicit parameters stand for the handler's environment: `nodeEnv` is
`process.env.NODE_ENV`, `now` is `Date.now()`, `rnd` is
`Math.floor(Math.random() * 900000)`, and `nextId` is the id the database
would assign to a freshly inserted row.  A missing request field arrives as
the empty string (JS falsiness of `undefined` and `""` coincide here).

Control flow of the source: reject when `!mobile || mobile.length < 10`;
otherwise generate the code and expiry, `SELECT` rows with this mobile,
`UPDATE ... SET otp, otp_expires_at WHERE mobile` when some exist, else
`INSERT` a new row with `is_active = true, is_verified = false`; echo the
code to console and response only when `NODE_ENV === "development"`. -/
def sendOtp (nodeEnv : Option String) (now : Int) (rnd : Nat) (nextId : Nat)
    (users : List User) (mobile : String) (role : String) : SendOtpResult :=
  if mobile = "" ∨ mobile.length < 10 then
    { resp := .badRequest "Valid mobile number required", users := users, consoleOtpLog := none }
  else
    let otp := generateOTP rnd
    let otpExpiresAt : Int := now + 10 * 60 * 1000
    let existing := users.filter (fun u => u.mobile == mobile)
    let echo : Option String := if nodeEnv = some "development" then some otp else none
    if existing.length > 0 then
      { resp := .ok echo,
        users := users.map (fun u =>
          if u.mobile = mobile then
            { u with otp := some otp, otpExpiresAt := some otpExpiresAt }
          else u),
        consoleOtpLog := echo }
    else
      { resp := .ok echo,
        users := users ++ [{ id := nextId, mobile := mobile, email := none,
                             passwordHash := none, role := role, isActive := true,
                             is_verified := false, otp := some otp,
                             otpExpiresAt := some otpExpiresAt }],
        consoleOtpLog := echo }

/-- Client-visible response of `POST /verify-otp` (status and body). -/
inductive VerifyResp where
  /-- HTTP 400 with body `{ error }`. -/
  | badRequest (error : String)
  /-- HTTP 200 with body `{ success: true, token, user, profileCompleted, redirectTo }`. -/
  | ok (token : SessionToken) (userId : Nat) (userMobile : String) (userRole : String)
       (profileCompleted : Bool) (redirectTo : Option String)
  deriving Repr, DecidableEq

/-- Whether a `POST /verify-otp` response is the success response. -/
def VerifyResp.isSuccess : VerifyResp → Bool
  | .ok _ _ _ _ _ _ => true
  | _ => false

/-- Outcome of one `POST /verify-otp` request. -/
structure VerifyResult where
  resp : VerifyResp
  users : List User
  deriving Repr, DecidableEq

/-- Handler of `POST /verify-otp` in `src/routes/auth.js`.

`candidateProfiles` and `employerProfiles` are the sets of `user_id`s present
in the corresponding profile tables.  The lookup is
`SELECT * FROM users WHERE mobile = $1 AND otp = $2` followed by `users[0]`
(SQL `otp = $2` never matches a NULL `otp`); the expiry test is
`new Date(user.otp_expires_at) < new Date()`, where a NULL timestamp parses
to the epoch; on success one single
`UPDATE users SET is_verified = true, otp = NULL, otp_expires_at = NULL WHERE id = $1`
is issued, then the profile probe, redirect derivation and token minting. -/
def verifyOtp (now : Int) (secret : String)
    (candidateProfiles employerProfiles : List Nat)
    (users : List User) (mobile : String) (otp : String) : VerifyResult :=
  if mobile = "" ∨ otp = "" then
    { resp := .badRequest "Mobile and OTP required", users := users }
  else
    match users.find? (fun u => u.mobile == mobile && u.otp == some otp) with
    | none => { resp := .badRequest "Invalid OTP", users := users }
    | some user =>
      if user.otpExpiresAt.getD 0 < now then
        { resp := .badRequest "OTP expired", users := users }
      else
        let updatedUsers := users.map (fun u =>
          if u.id = user.id then
            { u with is_verified := true, otp := none, otpExpiresAt := none }
          else u)
        let hasProfile :=
          if user.role = "candidate" then candidateProfiles.contains user.id
          else if user.role = "employer" then employerProfiles.contains user.id
          else false
        let redirectTo : Option String :=
          if user.role = "candidate" then
            some (if hasProfile then "/candidate/dashboard" else "/candidate/profile-form")
          else if user.role = "employer" then
            some (if hasProfile then "/employer/dashboard" else "/employer/profile-form")
          else if user.role = "admin" then some "/admin/dashboard"
          else none
        { resp := .ok (jwtSign user.id user.mobile user.role secret)
            user.id user.mobile user.role hasProfile redirectTo,
          users := updatedUsers }

/-- Client-visible response of `POST /register` (status and body). -/
inductive RegisterResp where
  /-- HTTP 400 with body `{ error }`. -/
  | badRequest (error : String)
  /-- HTTP 201 with body `{ success: true, token, user: { id, mobile, email, role } }`. -/
  | created (token : SessionToken) (id : Nat) (mobile : String)
      (email : Option String) (role : String)
  deriving Repr, DecidableEq

/-- Outcome of one `POST /register` request. -/
structure RegisterResult where
  resp : RegisterResp
  users : List User
  deriving Repr, DecidableEq

/-- Handler of `POST /register` in `src/routes/auth.js`.

Validation is only `if (!mobile)`; then `SELECT id FROM users WHERE mobile = $1`
rejects duplicates; otherwise `INSERT ... VALUES ($1,$2,$3,$4,true,false)`
creates the row (the bcrypt hash of the optional password arrives already
computed as `passwordHash`) and a token is minted for it. -/
def register (secret : String) (nextId : Nat) (users : List User)
    (mobile : String) (email : Option String) (passwordHash : Option String)
    (role : String) : RegisterResult :=
  if mobile = "" then
    { resp := .badRequest "Mobile number required", users := users }
  else if (users.filter (fun u => u.mobile == mobile)).length > 0 then
    { resp := .badRequest "User already exists", users := users }
  else
    { resp := .created (jwtSign nextId mobile role secret) nextId mobile email role,
      users := users ++ [{ id := nextId, mobile := mobile, email := email,
                           passwordHash := passwordHash, role := role, isActive := true,
                           is_verified := false, otp := none, otpExpiresAt := none }] }

/-- Outcome of one interaction with the database driver (a `pool.connect()`
or `client.query(...)` call): it either completes or rejects. -/
inductive DbStep where
  | ok
  | fail
  deriving Repr, DecidableEq

/-- Function `logEvent` from `src/routes/auth.js` (the Audit Log Sink's `record`).

The source first `console.log`s the line, then runs
`const client = await pool.connect()` — NOT inside the `try` — and only then
`try { INSERT INTO auth_logs ... } catch (err) { console.error(...) } finally { client.release() }`.
So a rejected `pool.connect()` escapes `logEvent` (`.error`), while an
`INSERT` failure is swallowed.  The returned `Bool` records whether the audit
row was written. -/
def logEvent (connect : DbStep) (insertQuery : DbStep) : Except String Bool :=
  match connect with
  | .fail => .error "pool.connect failed"
  | .ok =>
    match insertQuery with
    | .ok => .ok true
    | .fail => .ok false

/-- Function `runQuery` from `src/routes/auth.js`: acquire a connection, run the query,
then `await logEvent(success)` inside the `try`; on any caught error,
`await logEvent(error)` in the `catch` and rethrow.  `lc1/li1` are the
outcomes of the success-path `logEvent`'s own store interactions, `lc2/li2`
those of the catch-path `logEvent`. -/
def runQuery (connectMain : DbStep) (query : DbStep)
    (lc1 li1 lc2 li2 : DbStep) : Except String Unit :=
  match connectMain with
  | .fail => .error "pool.connect failed"
  | .ok =>
    match query with
    | .ok =>
      match logEvent lc1 li1 with
      | .ok _ => .ok ()
      | .error e =>
        match logEvent lc2 li2 with
        | .ok _ => .error e
        | .error e2 => .error e2
    | .fail =>
      match logEvent lc2 li2 with
      | .ok _ => .error "query failed"
      | .error e2 => .error e2

/-- Environment variables of the process: `process.env` as a partial map. -/
def Env : Type := String → Option String

/-- JS falsiness of an environment variable: `!process.env[key]` is true when
the variable is unset or the empty string. -/
def envFalsy (v : Option String) : Bool :=
  match v with
  | none => true
  | some s => decide (s = "")

/-- Startup check `validateEnv` (from the env-check helper), called by
`server.js` before the app starts:
`["DATABASE_URL", "JWT_SECRET"].filter(key => !process.env[key])`, and
`process.exit(1)` when any is missing.  Returns `true` when the process is
allowed to start. -/
def validateEnv (env : Env) : Bool :=
  !(decide ((["DATABASE_URL", "JWT_SECRET"].filter (fun key => envFalsy (env key))).length > 0))

/-- Constant `JWT_SECRET` from `src/routes/auth.js`:
`process.env.JWT_SECRET || "your-secret-key-change-in-production"`. -/
def JWT_SECRET (env : Env) : String :=
  match env "JWT_SECRET" with
  | none => "your-secret-key-change-in-production"
  | some s => if s = "" then "your-secret-key-change-in-production" else s

/-- Requests that drive the Credential Store of this core: the three state
mutating endpoints of `src/routes/auth.js`. -/
inductive AuthOp where
  | send (now : Int) (rnd : Nat) (nextId : Nat) (mobile : String) (role : String)
  | verify (now : Int) (mobile : String) (otp : String)
  | reg (nextId : Nat) (mobile : String) (email : Option String)
      (passwordHash : Option String) (role : String)

/-- State reached by one request of the core, dropping the response. -/
def applyOp (nodeEnv : Option String) (secret : String)
    (candidateProfiles employerProfiles : List Nat) :
    AuthOp → List User → List User
  | .send now rnd nextId mobile role, users =>
    (sendOtp nodeEnv now rnd nextId users mobile role).users
  | .verify now mobile otp, users =>
    (verifyOtp now secret candidateProfiles employerProfiles users mobile otp).users
  | .reg nextId mobile email passwordHash role, users =>
    (register secret nextId users mobile email passwordHash role).users

/-- One `POST /send-otp` request's data, for reasoning about request
sequences. -/
structure OtpRequest where
  now : Int
  rnd : Nat
  nextId : Nat
  mobile : String
  role : String

/-- State of the `users` table after a sequence of `POST /send-otp`
requests, applied left to right. -/
def sendOtpSeq (nodeEnv : Option String) : List OtpRequest → List User → List User
  | [], users => users
  | r :: rs, users =>
    sendOtpSeq nodeEnv rs (sendOtp nodeEnv r.now r.rnd r.nextId users r.mobile r.role).users

/-- Mobile numbers uniquely identify rows of the `users` table (the schema's
`mobile VARCHAR(15) UNIQUE NOT NULL`). -/
def mobileUnique (users : List User) : Prop :=
  users.Pairwise (fun a b => a.mobile ≠ b.mobile)

/-- The `otp` field of a `POST /send-otp` response body (absent on a 400). -/
def SendOtpResp.echoedOtp : SendOtpResp → Option String
  | .badRequest _ => none
  | .ok o => o

/-- Environment holding both variables `validateEnv` requires. -/
def envSample : Env := fun key =>
  if key = "DATABASE_URL" then some "postgres://localhost:5432/app"
  else if key = "JWT_SECRET" then some "s3cret" else none

/-- C3: the Audit Log Sink's `record` operation (`logEvent`) does swallow a
failed `INSERT` (returning normally with no audit row written), but a failed
`pool.connect()` — which the source awaits outside its `try`/`catch` — escapes
to the caller, and via `runQuery` aborts a business query that had already
succeeded.  This contradicts the contract that `record` never throws and
never aborts the operation being logged. -/
theorem c3_logEvent_connect_failure_propagates :
    logEvent .ok .fail = .ok false ∧
    logEvent .fail .ok = .error "pool.connect failed" ∧
    runQuery .ok .ok .fail .ok .fail .ok = .error "pool.connect failed" :=
  ⟨rfl, rfl, rfl⟩

/-- C4: the session-signing secret is enforced at startup: with `JWT_SECRET`
unset (or empty) `validateEnv` makes the process refuse to start, and whenever
the process does start, the secret the handlers sign with (`JWT_SECRET env`)
is exactly the supplied, non-empty environment value — never the fallback. -/
theorem c4_signing_secret_startup_fatal (env : Env) :
    (envFalsy (env "JWT_SECRET") = true → validateEnv env = false) ∧
    (validateEnv env = true →
      ∃ s, env "JWT_SECRET" = some s ∧ s ≠ "" ∧ JWT_SECRET env = s) := by
  have part1 : envFalsy (env "JWT_SECRET") = true → validateEnv env = false := by
    intro h
    cases hdb : envFalsy (env "DATABASE_URL") <;>
      simp [validateEnv, List.filter_cons, List.filter_nil, hdb, h]
  refine ⟨part1, fun h => ?_⟩
  cases hjs : envFalsy (env "JWT_SECRET") with
  | true =>
    rw [part1 hjs] at h
    exact absurd h (by simp)
  | false =>
    cases henv : env "JWT_SECRET" with
    | none =>
      rw [henv] at hjs
      exact absurd hjs (by simp [envFalsy])
    | some s =>
      rw [henv] at hjs
      have hs : s ≠ "" := by simpa [envFalsy] using hjs
      exact ⟨s, rfl, hs, by simp [JWT_SECRET, henv, hs]⟩

/-- C4 witness: on a concrete environment holding both variables the process
starts and signs with the supplied secret. -/
theorem c4_witness :
    ∃ s, envSample "JWT_SECRET" = some s ∧ s ≠ "" ∧ JWT_SECRET envSample = s :=
  (c4_signing_secret_startup_fatal envSample).2 (by decide)

/-- C6 (amended): a successful `send-otp` echoes the code in the response body
and to the console exactly when `NODE_ENV` is the string `"development"` —
not in every non-production mode — and in particular never in production. -/
theorem c6_otp_echo_iff_development (nodeEnv : Option String) (now : Int)
    (rnd nextId : Nat) (users : List User) (m role : String)
    (hm : ¬(m = "" ∨ m.length < 10)) :
    ((sendOtp nodeEnv now rnd nextId users m role).resp.echoedOtp
        = if nodeEnv = some "development" then some (generateOTP rnd) else none) ∧
    ((sendOtp nodeEnv now rnd nextId users m role).consoleOtpLog
        = if nodeEnv = some "development" then some (generateOTP rnd) else none) ∧
    (nodeEnv = some "production" →
      (sendOtp nodeEnv now rnd nextId users m role).resp.echoedOtp = none ∧
      (sendOtp nodeEnv now rnd nextId users m role).consoleOtpLog = none) := by
  by_cases hex : (users.filter (fun u => u.mobile == m)).length > 0 <;>
    exact ⟨by simp [sendOtp, hm, hex, SendOtpResp.echoedOtp],
           by simp [sendOtp, hm, hex],
           fun hprod => ⟨by simp [sendOtp, hm, hex, hprod, SendOtpResp.echoedOtp],
                         by simp [sendOtp, hm, hex, hprod]⟩⟩

/-- C6 witness: in development mode the code is echoed back. -/
theorem c6_witness :
    (sendOtp (some "development") 0 0 1 [] "9999999999" "candidate").resp.echoedOtp
      = some (generateOTP 0) := by
  have h := c6_otp_echo_iff_development (some "development") 0 0 1 [] "9999999999"
    "candidate" (by decide)
  simpa using h.1

/-- C6 counterexample: `NODE_ENV = "test"` is a non-production operating mode,
yet a successful `send-otp` neither returns the code nor logs it, because the
source tests `NODE_ENV === "development"` specifically.  So "echoed iff
non-production" fails. -/
theorem c6_counterexample :
    (some "test" : Option String) ≠ some "production" ∧
    (sendOtp (some "test") 0 0 1 [] "9999999999" "candidate").resp = .ok none ∧
    (sendOtp (some "test") 0 0 1 [] "9999999999" "candidate").consoleOtpLog = none := by
  exact ⟨by decide, rfl, rfl⟩

/-- C10: `register` performs no minimum-length validation: any non-empty
mobile — here one shorter than 10 characters — creates the Identity (absent a
duplicate) and is answered 201, while `send-otp` rejects the same mobile with
a 400 and touches nothing. -/
theorem c10_register_skips_min_length (secret : String) (nextId : Nat)
    (users : List User) (m : String) (email pw : Option String) (role : String)
    (nodeEnv : Option String) (now : Int) (rnd : Nat)
    (hne : m ≠ "") (hshort : m.length < 10)
    (habsent : ∀ v ∈ users, v.mobile ≠ m) :
    (register secret nextId users m email pw role).resp
        = .created (jwtSign nextId m role secret) nextId m email role ∧
    (register secret nextId users m email pw role).users
        = users ++ [⟨nextId, m, email, pw, role, true, false, none, none⟩] ∧
    (sendOtp nodeEnv now rnd nextId users m role).resp
        = .badRequest "Valid mobile number required" ∧
    (sendOtp nodeEnv now rnd nextId users m role).users = users := by
  have hfilter : users.filter (fun u => u.mobile == m) = [] := by
    refine List.filter_eq_nil_iff.mpr fun v hv => ?_
    simp [habsent v hv]
  exact ⟨by simp [register, hne, hfilter],
         by simp [register, hne, hfilter],
         by simp [sendOtp, hshort],
         by simp [sendOtp, hshort]⟩

/-- Unfolding equation of `toDecimalDigitsAux` at positive fuel. -/
theorem toDecimalDigitsAux_succ (fuel n : Nat) :
    toDecimalDigitsAux (fuel + 1) n =
      if n < 10 then [n] else toDecimalDigitsAux fuel (n / 10) ++ [n % 10] := rfl

/-- Digits of a number in the six-digit range, written out. -/
theorem toDecimalDigits_six (n : Nat) (h1 : 100000 ≤ n) (h2 : n ≤ 999999) :
    toDecimalDigits n =
      [n / 100000, n / 10000 % 10, n / 1000 % 10, n / 100 % 10, n / 10 % 10, n % 10] := by
  have e2 : n / 10 / 10 = n / 100 := by omega
  have e3 : n / 100 / 10 = n / 1000 := by omega
  have e4 : n / 1000 / 10 = n / 10000 := by omega
  have e5 : n / 10000 / 10 = n / 100000 := by omega
  show toDecimalDigitsAux 20 n = _
  rw [toDecimalDigitsAux_succ 19 n, if_neg (by omega),
      toDecimalDigitsAux_succ 18 (n / 10), if_neg (by omega), e2,
      toDecimalDigitsAux_succ 17 (n / 100), if_neg (by omega), e3,
      toDecimalDigitsAux_succ 16 (n / 1000), if_neg (by omega), e4,
      toDecimalDigitsAux_succ 15 (n / 10000), if_neg (by omega), e5,
      toDecimalDigitsAux_succ 14 (n / 100000), if_pos (by omega)]
  simp

/-- A decimal digit in `1..9` never prints as `'0'`. -/
theorem digitChar_ne_zero (d : Nat) (h1 : 1 ≤ d) (h2 : d ≤ 9) : digitChar d ≠ '0' := by
  interval_cases d <;> decide

/-- A decimal digit prints as a digit character. -/
theorem digitChar_isDigit (d : Nat) (h : d ≤ 9) : (digitChar d).isDigit = true := by
  interval_cases d <;> decide

/-- Character content of a six-digit number's decimal string. -/
theorem numToString_six_data (n : Nat) (h1 : 100000 ≤ n) (h2 : n ≤ 999999) :
    (numToString n).data =
      [digitChar (n / 100000), digitChar (n / 10000 % 10), digitChar (n / 1000 % 10),
       digitChar (n / 100 % 10), digitChar (n / 10 % 10), digitChar (n % 10)] := by
  show ((toDecimalDigits n).map digitChar) = _
  rw [toDecimalDigits_six n h1 h2]
  rfl

/-- After a valid `send-otp`, every row holding the requested mobile carries
the fresh code and the fresh expiry — whether it was updated in place or just
inserted. -/
theorem sendOtp_matching_rows (nodeEnv : Option String) (now : Int)
    (rnd nextId : Nat) (users : List User) (m role : String)
    (hm : ¬ (m = "" ∨ m.length < 10)) :
    ∀ u' ∈ (sendOtp nodeEnv now rnd nextId users m role).users, u'.mobile = m →
      u'.otp = some (generateOTP rnd) ∧ u'.otpExpiresAt = some (now + 10 * 60 * 1000) := by
  intro u' hu' hmob
  by_cases hex : (users.filter (fun u => u.mobile == m)).length > 0
  · simp only [sendOtp, if_neg hm, if_pos hex] at hu'
    rcases List.mem_map.mp hu' with ⟨v, hv, hveq⟩
    by_cases hvm : v.mobile = m
    · rw [← hveq]
      simp [hvm]
    · exfalso
      rw [← hveq] at hmob
      simp [hvm] at hmob
  · simp only [sendOtp, if_neg hm, if_neg hex] at hu'
    rcases List.mem_append.mp hu' with hv | hv
    · exfalso
      have hnil : users.filter (fun u => u.mobile == m) = [] := by
        cases hval : (users.filter (fun u => u.mobile == m)) with
        | nil => rfl
        | cons a t => exact absurd (by rw [hval]; simp) hex
      have := List.filter_eq_nil_iff.mp hnil u' hv
      simp [hmob] at this
    · have : u' = _ := List.mem_singleton.mp hv
      rw [this]
      exact ⟨rfl, rfl⟩

/-- C5 (amended): every code issued by a valid `send-otp` request is the
decimal string of `100000 + rnd` for `rnd` drawn from `[0, 900000)` — a
six-digit numeric string whose leading character is never `'0'` (so codes
with leading zeros can never occur) — and every Identity row holding the
fresh code stores expiry `now + 10` minutes. -/
theorem c5_code_range_and_expiry (nodeEnv : Option String) (now : Int)
    (rnd nextId : Nat) (users : List User) (m role : String)
    (hrnd : rnd ≤ 899999) (hm : ¬(m = "" ∨ m.length < 10)) :
    (∀ u' ∈ (sendOtp nodeEnv now rnd nextId users m role).users, u'.mobile = m →
      u'.otp = some (generateOTP rnd) ∧ u'.otpExpiresAt = some (now + 10 * 60 * 1000)) ∧
    generateOTP rnd = numToString (100000 + rnd) ∧
    100000 ≤ 100000 + rnd ∧ 100000 + rnd ≤ 999999 ∧
    (generateOTP rnd).length = 6 ∧
    (∀ c ∈ (generateOTP rnd).data, c.isDigit = true) ∧
    (generateOTP rnd).data.head? ≠ some '0' := by
  have hn1 : 100000 ≤ 100000 + rnd := by omega
  have hn2 : 100000 + rnd ≤ 999999 := by omega
  have hdata := numToString_six_data (100000 + rnd) hn1 hn2
  refine ⟨sendOtp_matching_rows nodeEnv now rnd nextId users m role hm, rfl, hn1, hn2,
    ?_, ?_, ?_⟩
  · show (generateOTP rnd).data.length = 6
    rw [show (generateOTP rnd).data = (numToString (100000 + rnd)).data from rfl, hdata]
    rfl
  · intro c hc
    rw [show (generateOTP rnd).data = (numToString (100000 + rnd)).data from rfl, hdata] at hc
    simp only [List.mem_cons, List.not_mem_nil, or_false] at hc
    rcases hc with h | h | h | h | h | h <;>
      { rw [h]; exact digitChar_isDigit _ (by omega) }
  · rw [show (generateOTP rnd).data = (numToString (100000 + rnd)).data from rfl, hdata]
    intro h
    rw [List.head?_cons] at h
    exact digitChar_ne_zero ((100000 + rnd) / 100000) (by omega) (by omega) (Option.some.inj h)

/-- C5 witness: at `rnd = 0` the issued code is `"100000"`, six digit
characters not starting with `'0'`, and the stored expiry on a fresh Identity
is `now + 600000` ms. -/
theorem c5_witness :
    generateOTP 0 = numToString 100000 ∧
    (generateOTP 0).length = 6 ∧
    (generateOTP 0).data.head? ≠ some '0' ∧
    (∀ u' ∈ (sendOtp none 0 0 1 [] "9999999999" "candidate").users, u'.mobile = "9999999999" →
      u'.otp = some (generateOTP 0) ∧ u'.otpExpiresAt = some (0 + 10 * 60 * 1000)) := by
  have h := c5_code_range_and_expiry none 0 0 1 [] "9999999999" "candidate"
    (by decide) (by decide)
  exact ⟨h.2.1, h.2.2.2.2.1, h.2.2.2.2.2.2, h.1⟩

/-- C5 counterexample: `"000000"` is a six-digit numeric string, but no value
of `Math.random()` makes `generateOTP` produce it — the generator's range is
`100000..999999`, so a code with a leading zero has probability `0`, and the
distribution is not uniform over all six-digit strings. -/
theorem c5_counterexample :
    ("000000".length = 6 ∧ ∀ c ∈ "000000".data, c.isDigit = true) ∧
    ¬ ∃ rnd, rnd ≤ 899999 ∧ generateOTP rnd = "000000" := by
  refine ⟨by decide, ?_⟩
  rintro ⟨rnd, hrnd, heq⟩
  have hdata := numToString_six_data (100000 + rnd) (by omega) (by omega)
  have : (generateOTP rnd).data = "000000".data := by rw [heq]
  rw [show (generateOTP rnd).data = (numToString (100000 + rnd)).data from rfl, hdata] at this
  have hhead : digitChar ((100000 + rnd) / 100000) = '0' := by
    have := congrArg List.head? this
    simpa using this
  exact digitChar_ne_zero ((100000 + rnd) / 100000) (by omega) (by omega) hhead

/-- The `verify-otp` lookup over a store with unique mobiles: when `u` is the
row holding mobile `m`, the `WHERE mobile = $1 AND otp = $2` query returns `u`
exactly when `u`'s stored code is the submitted one. -/
theorem find?_verify_lookup (users : List User) (m c : String) (u : User)
    (huniq : users.Pairwise (fun a b => a.mobile ≠ b.mobile))
    (hu : u ∈ users) (hum : u.mobile = m) :
    users.find? (fun v => v.mobile == m && v.otp == some c) =
      (if u.otp = some c then some u else none) := by
  induction users with
  | nil => cases hu
  | cons a t ih =>
    have ha : ∀ b ∈ t, a.mobile ≠ b.mobile := (List.pairwise_cons.mp huniq).1
    have ht := (List.pairwise_cons.mp huniq).2
    rcases List.mem_cons.mp hu with rfl | hut
    · by_cases hotp : u.otp = some c
      · rw [if_pos hotp]
        exact List.find?_cons_of_pos _ (by simp [hum, hotp])
      · rw [if_neg hotp, List.find?_cons_of_neg _ (by simp [hum, hotp])]
        refine List.find?_eq_none.mpr fun v hv => ?_
        simp only [Bool.and_eq_true, beq_iff_eq]
        rintro ⟨hvm, -⟩
        exact ha v hv (hum.trans hvm.symm)
    · have ham : ¬ a.mobile = m := fun h => ha u hut (h.trans hum.symm)
      rw [List.find?_cons_of_neg _ (by simp [ham]), ih ht hut]

/-- Identity row with a live code, used as concrete test data. -/
def otpUser : User :=
  ⟨7, "9999999999", none, none, "candidate", true, false, some "123456", some 1000000⟩

/-- Identity row whose code has expired, used as concrete test data. -/
def expiredUser : User :=
  ⟨8, "8888888888", none, none, "candidate", true, false, some "654321", some 10⟩

/-- C1 (amended): over a store whose mobiles are unique, `verify-otp` for the
Identity `u` holding mobile `m` succeeds exactly when the submitted code
matches the stored one and the stored expiry is NOT strictly before now
(`now ≤ expiry`; a null expiry is read as the epoch) — the source uses a
strict `<` for expiry, so `now = expiry` still succeeds — and on success the
store changes by exactly one update which simultaneously sets
`is_verified = true` and clears both code and expiry. -/
theorem c1_verify_success_iff (now : Int) (secret : String)
    (cps eps : List Nat) (users : List User) (u : User) (m c : String)
    (hm : m ≠ "") (hc : c ≠ "") (huniq : mobileUnique users)
    (hu : u ∈ users) (hum : u.mobile = m) :
    ((verifyOtp now secret cps eps users m c).resp.isSuccess = true ↔
      (u.otp = some c ∧ ¬ (u.otpExpiresAt.getD 0 < now))) ∧
    ((verifyOtp now secret cps eps users m c).resp.isSuccess = true →
      (verifyOtp now secret cps eps users m c).users =
        users.map (fun v => if v.id = u.id then
          { v with is_verified := true, otp := none, otpExpiresAt := none } else v) ∧
      { u with is_verified := true, otp := none, otpExpiresAt := none }
        ∈ (verifyOtp now secret cps eps users m c).users) := by
  have hval : ¬ (m = "" ∨ c = "") := by simp [hm, hc]
  have hfind := find?_verify_lookup users m c u huniq hu hum
  by_cases hotp : u.otp = some c
  · rw [if_pos hotp] at hfind
    by_cases hexp : u.otpExpiresAt.getD 0 < now
    · constructor
      · constructor
        · intro hs
          simp only [verifyOtp, if_neg hval, hfind, if_pos hexp, VerifyResp.isSuccess] at hs
          exact absurd hs (by decide)
        · rintro ⟨-, hne⟩
          exact absurd hexp hne
      · intro hs
        simp only [verifyOtp, if_neg hval, hfind, if_pos hexp, VerifyResp.isSuccess] at hs
        exact absurd hs (by decide)
    · refine ⟨?_, fun _ => ⟨?_, ?_⟩⟩
      · simp only [verifyOtp, if_neg hval, hfind, if_neg hexp, VerifyResp.isSuccess]
        simp [hotp, hexp]
      · simp only [verifyOtp, if_neg hval, hfind, if_neg hexp]
      · simp only [verifyOtp, if_neg hval, hfind, if_neg hexp]
        refine List.mem_map.mpr ⟨u, hu, ?_⟩
        simp
  · rw [if_neg hotp] at hfind
    constructor
    · constructor
      · intro hs
        simp only [verifyOtp, if_neg hval, hfind, VerifyResp.isSuccess] at hs
        exact absurd hs (by decide)
      · rintro ⟨ho, -⟩
        exact absurd ho hotp
    · intro hs
      simp only [verifyOtp, if_neg hval, hfind, VerifyResp.isSuccess] at hs
      exact absurd hs (by decide)

/-- C1 witness: a matching, unexpired code verifies successfully. -/
theorem c1_witness :
    (verifyOtp 5 "k" [] [] [otpUser] "9999999999" "123456").resp.isSuccess = true := by
  have h := c1_verify_success_iff 5 "k" [] [] [otpUser] otpUser "9999999999" "123456"
    (by decide) (by decide) (by simp [mobileUnique]) (by simp) rfl
  exact h.1.mpr (by decide)

/-- C1 counterexample: at the boundary `now = stored expiry` the submitted
code matches but `now < stored expiry` is false, yet verification succeeds —
the claim's "succeeds only if now < stored expiry" fails (the source rejects
only when `expiry < now`). -/
theorem c1_counterexample :
    ((⟨1, "9999999999", none, none, "candidate", true, false, some "123456", some 1000⟩ : User).otp
        = some "123456") ∧
    (verifyOtp 1000 "k" [] []
        [⟨1, "9999999999", none, none, "candidate", true, false, some "123456", some 1000⟩]
        "9999999999" "123456").resp.isSuccess = true ∧
    ¬ ((1000 : Int) < (1000 : Int)) := by
  decide

/-- C2: failure frames of `verify-otp`.  A matching but expired code yields
`400 "OTP expired"` and leaves the store untouched (the code and expiry are
still present); a code matching no row yields `400 "Invalid OTP"` and mutates
nothing. -/
theorem c2_failure_frames (now : Int) (secret : String) (cps eps : List Nat)
    (users : List User) (m c : String) (hm : m ≠ "") (hc : c ≠ "") :
    (∀ u, mobileUnique users → u ∈ users → u.mobile = m → u.otp = some c →
      u.otpExpiresAt.getD 0 < now →
      (verifyOtp now secret cps eps users m c).resp = .badRequest "OTP expired" ∧
      (verifyOtp now secret cps eps users m c).users = users) ∧
    ((∀ v ∈ users, ¬ (v.mobile = m ∧ v.otp = some c)) →
      (verifyOtp now secret cps eps users m c).resp = .badRequest "Invalid OTP" ∧
      (verifyOtp now secret cps eps users m c).users = users) := by
  have hval : ¬ (m = "" ∨ c = "") := by simp [hm, hc]
  constructor
  · intro u huniq hu hum hotp hexp
    have hfind := find?_verify_lookup users m c u huniq hu hum
    rw [if_pos hotp] at hfind
    constructor <;> simp only [verifyOtp, if_neg hval, hfind, if_pos hexp]
  · intro hno
    have hfind : users.find? (fun v => v.mobile == m && v.otp == some c) = none := by
      refine List.find?_eq_none.mpr fun v hv => ?_
      simp only [Bool.and_eq_true, beq_iff_eq]
      exact hno v hv
    constructor <;> simp only [verifyOtp, if_neg hval, hfind]

/-- C2 witness: an expired match is rejected with "OTP expired" and the row is
kept as is; a wrong code is rejected with "Invalid OTP" and the row is kept. -/
theorem c2_witness :
    (verifyOtp 100 "k" [] [] [expiredUser] "8888888888" "654321").resp
        = .badRequest "OTP expired" ∧
    (verifyOtp 100 "k" [] [] [expiredUser] "8888888888" "654321").users = [expiredUser] ∧
    (verifyOtp 100 "k" [] [] [expiredUser] "8888888888" "000000").resp
        = .badRequest "Invalid OTP" ∧
    (verifyOtp 100 "k" [] [] [expiredUser] "8888888888" "000000").users = [expiredUser] := by
  have h1 := c2_failure_frames 100 "k" [] [] [expiredUser] "8888888888" "654321"
    (by decide) (by decide)
  have h2 := c2_failure_frames 100 "k" [] [] [expiredUser] "8888888888" "000000"
    (by decide) (by decide)
  have a := h1.1 expiredUser (by simp [mobileUnique]) (by simp) rfl (by decide) (by decide)
  have b := h2.2 (by decide)
  exact ⟨a.1, a.2, b.1, b.2⟩

/-- C8: `verify-otp` does not leak account existence: a request for a mobile
with no Identity and a request for a mobile whose Identity holds a different
code receive the identical client-visible response, `400 "Invalid OTP"` —
whatever the stores, clocks and secrets involved. -/
theorem c8_no_account_enumeration
    (now1 now2 : Int) (s1 s2 : String) (cps1 eps1 cps2 eps2 : List Nat)
    (users1 users2 : List User) (m1 c1 m2 c2 : String)
    (hm1 : m1 ≠ "") (hc1 : c1 ≠ "") (hm2 : m2 ≠ "") (hc2 : c2 ≠ "")
    (habsent : ∀ v ∈ users1, v.mobile ≠ m1)
    (_hpresent : ∃ v ∈ users2, v.mobile = m2)
    (hnomatch : ∀ v ∈ users2, v.mobile = m2 → v.otp ≠ some c2) :
    (verifyOtp now1 s1 cps1 eps1 users1 m1 c1).resp
      = (verifyOtp now2 s2 cps2 eps2 users2 m2 c2).resp ∧
    (verifyOtp now1 s1 cps1 eps1 users1 m1 c1).resp = .badRequest "Invalid OTP" := by
  have hval1 : ¬ (m1 = "" ∨ c1 = "") := by simp [hm1, hc1]
  have hval2 : ¬ (m2 = "" ∨ c2 = "") := by simp [hm2, hc2]
  have hf1 : users1.find? (fun v => v.mobile == m1 && v.otp == some c1) = none := by
    refine List.find?_eq_none.mpr fun v hv => ?_
    simp only [Bool.and_eq_true, beq_iff_eq]
    rintro ⟨hvm, -⟩
    exact habsent v hv hvm
  have hf2 : users2.find? (fun v => v.mobile == m2 && v.otp == some c2) = none := by
    refine List.find?_eq_none.mpr fun v hv => ?_
    simp only [Bool.and_eq_true, beq_iff_eq]
    rintro ⟨hvm, ho⟩
    exact hnomatch v hv hvm ho
  constructor <;> simp only [verifyOtp, if_neg hval1, if_neg hval2, hf1, hf2]

/-- C8 witness: an unknown mobile and a known mobile with a wrong code receive
the same response. -/
theorem c8_witness :
    (verifyOtp 0 "k" [] [] [] "7777777777" "111111").resp
      = (verifyOtp 0 "k" [] [] [otpUser] "9999999999" "222222").resp := by
  have h := c8_no_account_enumeration 0 0 "k" "k" [] [] [] [] [] [otpUser]
    "7777777777" "111111" "9999999999" "222222"
    (by decide) (by decide) (by decide) (by decide)
    (by simp) ⟨otpUser, by simp, rfl⟩ (by decide)
  exact h.1

/-- C10 witness: mobile `"123"` (3 characters) is rejected by `send-otp` but
registered by `register` into an empty store. -/
theorem c10_witness :
    (register "secret" 1 [] "123" none none "candidate").resp
        = .created (jwtSign 1 "123" "candidate" "secret") 1 "123" none "candidate" ∧
    (register "secret" 1 [] "123" none none "candidate").users
        = [] ++ [⟨1, "123", none, none, "candidate", true, false, none, none⟩] ∧
    (sendOtp none 0 0 1 [] "123" "candidate").resp
        = .badRequest "Valid mobile number required" ∧
    (sendOtp none 0 0 1 [] "123" "candidate").users = [] :=
  c10_register_skips_min_length "secret" 1 [] "123" none none "candidate" none 0 0
    (by decide) (by decide) (by simp)

/-- One `send-otp` request keeps mobiles unique: the update branch rewrites
rows in place and the insert branch only fires when no row holds the mobile. -/
theorem mobileUnique_sendOtp (nodeEnv : Option String) (now : Int)
    (rnd nextId : Nat) (users : List User) (m role : String)
    (h : mobileUnique users) :
    mobileUnique (sendOtp nodeEnv now rnd nextId users m role).users := by
  by_cases hval : m = "" ∨ m.length < 10
  · simpa [sendOtp, hval] using h
  · by_cases hex : (users.filter (fun u => u.mobile == m)).length > 0
    · simp only [sendOtp, if_neg hval, if_pos hex, mobileUnique]
      refine List.Pairwise.map _ ?_ h
      intro a b hab
      by_cases ha : a.mobile = m <;> by_cases hb : b.mobile = m
      · exact absurd (ha.trans hb.symm) hab
      · simpa [ha, hb] using hab
      · simp [ha, hb, hab]
      · simp [ha, hb, hab]
    · simp only [sendOtp, if_neg hval, if_neg hex, mobileUnique]
      rw [List.pairwise_append]
      refine ⟨h, List.pairwise_singleton _ _, ?_⟩
      intro a ha b hb
      rw [List.mem_singleton] at hb
      subst hb
      have hnil : users.filter (fun u => u.mobile == m) = [] := by
        cases hfe : (users.filter (fun u => u.mobile == m)) with
        | nil => rfl
        | cons x xs => exact absurd (by rw [hfe]; simp) hex
      have := List.filter_eq_nil_iff.mp hnil a ha
      simpa using this

/-- A store with unique mobiles holds at most one row per mobile. -/
theorem count_mobile_le_one (m : String) (users : List User)
    (h : mobileUnique users) :
    (users.filter (fun u => u.mobile == m)).length ≤ 1 := by
  induction users with
  | nil => simp
  | cons a t ih =>
    have ha : ∀ b ∈ t, a.mobile ≠ b.mobile := (List.pairwise_cons.mp h).1
    have ht : mobileUnique t := (List.pairwise_cons.mp h).2
    rw [List.filter_cons]
    by_cases ham : a.mobile = m
    · rw [if_pos (by simp [ham])]
      have hnil : t.filter (fun u => u.mobile == m) = [] := by
        refine List.filter_eq_nil_iff.mpr fun b hb => ?_
        have := ha b hb
        simp only [beq_iff_eq]
        intro hbm
        exact this (ham.trans hbm.symm)
      simp [hnil]
    · rw [if_neg (by simp [ham])]
      exact ih ht

/-- C7: Identity creation and overwrite discipline of `send-otp`.  A valid
request for an unseen mobile appends exactly one unverified Identity holding
the fresh code and expiry, and afterwards exactly one row holds that mobile; a
valid request for a seen mobile rewrites code and expiry in place, adding no
row and changing no mobile; and any sequence of `send-otp` requests keeps
mobiles unique, so at most one Identity per mobile ever holds. -/
theorem c7_one_identity_per_mobile (nodeEnv : Option String) :
    (∀ (now : Int) (rnd nextId : Nat) (users : List User) (m role : String),
      ¬ (m = "" ∨ m.length < 10) → (∀ v ∈ users, v.mobile ≠ m) →
      (sendOtp nodeEnv now rnd nextId users m role).users
        = users ++ [⟨nextId, m, none, none, role, true, false, some (generateOTP rnd),
                     some (now + 10 * 60 * 1000)⟩] ∧
      ((sendOtp nodeEnv now rnd nextId users m role).users.filter
          (fun u => u.mobile == m)).length = 1) ∧
    (∀ (now : Int) (rnd nextId : Nat) (users : List User) (m role : String),
      ¬ (m = "" ∨ m.length < 10) → (∃ v ∈ users, v.mobile = m) →
      (sendOtp nodeEnv now rnd nextId users m role).users.length = users.length ∧
      (sendOtp nodeEnv now rnd nextId users m role).users.map User.mobile
        = users.map User.mobile ∧
      (∀ u' ∈ (sendOtp nodeEnv now rnd nextId users m role).users, u'.mobile = m →
        u'.otp = some (generateOTP rnd) ∧
        u'.otpExpiresAt = some (now + 10 * 60 * 1000))) ∧
    (∀ (reqs : List OtpRequest) (users : List User), mobileUnique users →
      mobileUnique (sendOtpSeq nodeEnv reqs users) ∧
      ∀ m, ((sendOtpSeq nodeEnv reqs users).filter (fun u => u.mobile == m)).length ≤ 1) := by
  refine ⟨?_, ?_, ?_⟩
  · intro now rnd nextId users m role hval habsent
    have hnil : users.filter (fun u => u.mobile == m) = [] := by
      refine List.filter_eq_nil_iff.mpr fun v hv => ?_
      simp [habsent v hv]
    have hex : ¬ ((users.filter (fun u => u.mobile == m)).length > 0) := by
      rw [hnil]
      simp
    constructor
    · simp only [sendOtp, if_neg hval, if_neg hex]
    · simp only [sendOtp, if_neg hval, if_neg hex]
      rw [List.filter_append, hnil]
      simp
  · intro now rnd nextId users m role hval hseen
    rcases hseen with ⟨v, hv, hvm⟩
    have hex : (users.filter (fun u => u.mobile == m)).length > 0 := by
      have hmem : v ∈ users.filter (fun u => u.mobile == m) :=
        List.mem_filter.mpr ⟨hv, by simp [hvm]⟩
      exact List.length_pos.mpr (List.ne_nil_of_mem hmem)
    refine ⟨?_, ?_, sendOtp_matching_rows nodeEnv now rnd nextId users m role hval⟩
    · simp [sendOtp, if_neg hval, if_pos hex]
    · simp only [sendOtp, if_neg hval, if_pos hex, List.map_map]
      refine List.map_congr_left fun a _ => ?_
      by_cases ham : a.mobile = m <;> simp [ham]
  · intro reqs
    induction reqs with
    | nil => exact fun users h => ⟨h, fun m => count_mobile_le_one m users h⟩
    | cons r rs ih =>
      intro users h
      have hstep := mobileUnique_sendOtp nodeEnv r.now r.rnd r.nextId users r.mobile r.role h
      simpa [sendOtpSeq] using ih _ hstep

/-- C7 witness: requesting a code for an unseen valid mobile on the empty
store creates exactly one matching Identity row. -/
theorem c7_witness :
    (sendOtp none 0 0 1 [] "9999999999" "candidate").users
      = [] ++ [⟨1, "9999999999", none, none, "candidate", true, false, some (generateOTP 0),
               some ((0 : Int) + 10 * 60 * 1000)⟩] ∧
    ((sendOtp none 0 0 1 [] "9999999999" "candidate").users.filter
        (fun u => u.mobile == "9999999999")).length = 1 :=
  (c7_one_identity_per_mobile none).1 0 0 1 [] "9999999999" "candidate"
    (by decide) (by simp)

/-- Identity row already verified, used as concrete test data. -/
def verifiedUser : User :=
  ⟨9, "7777777777", none, none, "candidate", true, true, none, none⟩

/-- C9: `is_verified = true` is monotonic across every operation of the core.
For each of `send-otp`, `verify-otp` and `register`, a pre-state Identity that
is verified persists into the post-state (same id and mobile) still verified:
no update of this core writes `is_verified = false` onto an existing row. -/
theorem c9_verified_monotonic (nodeEnv : Option String) (secret : String)
    (cps eps : List Nat) (op : AuthOp) (users : List User) :
    ∀ u ∈ users, u.is_verified = true →
      ∃ u' ∈ applyOp nodeEnv secret cps eps op users,
        u'.id = u.id ∧ u'.mobile = u.mobile ∧ u'.is_verified = true := by
  intro u hu hv
  cases op with
  | send now rnd nextId m role =>
    by_cases hval : m = "" ∨ m.length < 10
    · exact ⟨u, by simpa [applyOp, sendOtp, hval] using hu, rfl, rfl, hv⟩
    · by_cases hex : (users.filter (fun x => x.mobile == m)).length > 0
      · simp only [applyOp, sendOtp, if_neg hval, if_pos hex]
        refine ⟨_, List.mem_map_of_mem _ hu, ?_⟩
        by_cases hum : u.mobile = m <;> simp [hum, hv]
      · simp only [applyOp, sendOtp, if_neg hval, if_neg hex]
        exact ⟨u, List.mem_append_left _ hu, rfl, rfl, hv⟩
  | verify now m c =>
    by_cases hval : m = "" ∨ c = ""
    · exact ⟨u, by simpa [applyOp, verifyOtp, hval] using hu, rfl, rfl, hv⟩
    · cases hfind : users.find? (fun v => v.mobile == m && v.otp == some c) with
      | none =>
        exact ⟨u, by simpa [applyOp, verifyOtp, hval, hfind] using hu, rfl, rfl, hv⟩
      | some w =>
        by_cases hexp : w.otpExpiresAt.getD 0 < now
        · exact ⟨u, by simpa [applyOp, verifyOtp, hval, hfind, hexp] using hu, rfl, rfl, hv⟩
        · simp only [applyOp, verifyOtp, if_neg hval, hfind, if_neg hexp]
          refine ⟨_, List.mem_map_of_mem _ hu, ?_⟩
          by_cases hid : u.id = w.id <;> simp [hid, hv]
  | reg nextId m email pw role =>
    by_cases hval : m = ""
    · exact ⟨u, by simpa [applyOp, register, hval] using hu, rfl, rfl, hv⟩
    · by_cases hex : (users.filter (fun x => x.mobile == m)).length > 0
      · exact ⟨u, by simpa [applyOp, register, hval, hex] using hu, rfl, rfl, hv⟩
      · simp only [applyOp, register, if_neg hval, if_neg hex]
        exact ⟨u, List.mem_append_left _ hu, rfl, rfl, hv⟩

/-- C9 witness: a verified Identity stays verified through a `verify-otp`
request that touches its mobile. -/
theorem c9_witness :
    ∃ u' ∈ applyOp none "k" [] [] (.verify 0 "7777777777" "123456") [verifiedUser],
      u'.id = verifiedUser.id ∧ u'.mobile = verifiedUser.mobile ∧ u'.is_verified = true :=
  c9_verified_monotonic none "k" [] [] (.verify 0 "7777777777" "123456") [verifiedUser]
    verifiedUser (by simp) rfl

end Auth
